import Mathlib

set_option autoImplicit false

namespace Fugue

/-- Python exception classes that the embedded code can raise. -/
inductive PyErrType where
  | valueError
  | typeError
  | assertionError
  | attributeError
  | indexError
  deriving DecidableEq, Repr

/-- A raised Python exception: its class and its message. -/
structure PyErr where
  ty : PyErrType
  msg : String
  deriving DecidableEq, Repr

/-- An abstract tabular-dataset handle (a fugue `DataFrame`): its rendered text
(for message interpolation) and its schema, rendered as text. -/
structure DF where
  tag : String
  schema : String
  deriving DecidableEq, Repr

/-- A Python runtime value as seen by the binding protocol: either an abstract
tabular-dataset handle (`DataFrame`) or any other value, carried as its rendered
text. -/
inductive Val where
  | df (d : DF)
  | other (tag : String)
  deriving DecidableEq, Repr

/-- Python `str()` of a value, as interpolated into error messages. -/
def pyStr : Val → String
  | .df d => d.tag
  | .other t => t

/-- A Python `dict` with string keys: insertion-ordered key/value pairs with
unique keys. -/
abbrev Dict (α : Type) : Type := List (String × α)

/-- Python `d[key]` lookup (`None`-free: `Option`). -/
def pyGet {α : Type} : Dict α → String → Option α
  | [], _ => none
  | (k, v) :: rest, key => if k = key then some v else pyGet rest key

/-- Python `key in d`. -/
def pyHasKey {α : Type} (d : Dict α) (key : String) : Bool :=
  (pyGet d key).isSome

/-- Python `d[key] = val`: replaces in place when the key exists, appends
otherwise (insertion order preserved). -/
def pySet {α : Type} : Dict α → String → α → Dict α
  | [], key, val => [(key, val)]
  | (k, v) :: rest, key, val =>
    if k = key then (k, val) :: rest else (k, v) :: pySet rest key val

/-- Python `del d[key]`. -/
def pyErase {α : Type} : Dict α → String → Dict α
  | [], _ => []
  | (k, v) :: rest, key => if k = key then rest else (k, v) :: pyErase rest key

/-- Python `d.update(e)`. -/
def pyUpdate {α : Type} (d e : Dict α) : Dict α :=
  e.foldl (fun acc kv => pySet acc kv.1 kv.2) d

/-- Python rendering of a dict of values, as interpolated into the
"are not acceptable parameters" message of `run`. -/
def pyDictRepr (d : Dict Val) : String :=
  "\x7b" ++
    String.intercalate ", "
      (d.map fun kv => "\x27" ++ kv.1 ++ "\x27: " ++ pyStr kv.2) ++
    "\x7d"

/-- The call-time capabilities of a `_DataFrameParamBase` parameter handler used
by `DataFrameFunctionWrapper.run` and `get_format_hint`: its `to_input_data`
conversion and its `format_hint`. -/
structure DFHandler where
  to_input_data : DF → Val
  format_hint : Option String

/-- Embeds the resolved annotation of one declared parameter: `_PositionalParam`
(the `*args` slot), `_KeywordParam` (the `**kwargs` slot), a tabular
`_DataFrameParamBase` handler, or any other `AnnotatedParam`. -/
inductive ParamAnn where
  | positional
  | keyword
  | dfParam (h : DFHandler)
  | plain

/-- One resolved parameter: its annotation kind and its requiredness flag. -/
structure ParamSpec where
  ann : ParamAnn
  required : Bool

/-- The call-time capabilities of a tabular `_DataFrameParamBase` return
handler: `count`, `to_output_df` and `format_hint`. -/
structure RetHandler where
  count : Val → Except PyErr Nat
  to_output_df : Val → Option String → Except PyErr Val
  format_hint : Option String

/-- The resolved return annotation: a tabular handler or anything else. -/
inductive RetAnn where
  | dfRet (h : RetHandler)
  | plain

/-- Embeds the positional part of the argument merge in
`DataFrameFunctionWrapper.run` (function_wrapper.py lines 53-55):
`p[self._params.get_key_by_index(i)] = args[i]` for each positional index, in
order; indexing past the declared parameters raises `IndexError`. -/
def buildP : List String → List Val → Dict Val → Except PyErr (Dict Val)
  | _, [], p => .ok p
  | [], _ :: _, _ => .error ⟨.indexError, "list index out of range"⟩
  | k :: ks, a :: rest, p => buildP ks rest (pySet p k a)

/-- Embeds `run` lines 53-56: positional args are bound to parameter slots by
declared index, then `p.update(kwargs)` overlays the keyword args. -/
def mergeCallArgs (sig : Dict ParamSpec) (args : List Val) (kwargs : Dict Val) :
    Except PyErr (Dict Val) :=
  match buildP (sig.map Prod.fst) args [] with
  | .error e => .error e
  | .ok p => .ok (pyUpdate p kwargs)

/-- Embeds the parameter-binding loop of `run` (lines 57-74): walks the declared
parameters in order, converting tabular arguments via `to_input_data`, passing
other matched values raw, recording the presence of a keyword-capture parameter,
and raising on a non-DataFrame value for a tabular parameter or on a missing
required parameter. Returns `(rargs, leftover pool, has_kw)`. -/
def bindLoop : Dict ParamSpec → Dict Val → Dict Val → Bool →
    Except PyErr (Dict Val × Dict Val × Bool)
  | [], p, rargs, has_kw => .ok (rargs, p, has_kw)
  | (k, v) :: rest, p, rargs, has_kw =>
    match v.ann with
    | .positional => bindLoop rest p rargs has_kw
    | .keyword => bindLoop rest p rargs true
    | .dfParam h =>
      match pyGet p k with
      | some pv =>
        match pv with
        | .df d =>
          bindLoop rest (pyErase p k) (pySet rargs k (h.to_input_data d)) has_kw
        | .other t => .error ⟨.typeError, t ++ " is not a DataFrame"⟩
      | none =>
        if v.required then .error ⟨.valueError, k ++ " is required by not given"⟩
        else bindLoop rest p rargs has_kw
    | .plain =>
      match pyGet p k with
      | some pv => bindLoop rest (pyErase p k) (pySet rargs k pv) has_kw
      | none =>
        if v.required then .error ⟨.valueError, k ++ " is required by not given"⟩
        else bindLoop rest p rargs has_kw

/-- What one call to `run` produced: the value Python returns (`none` embeds
Python `None`) and, when the return handler's `count` ran, the count it
computed (the source discards it; recording it captures the side effect). -/
structure RunOut where
  ret : Option Val
  counted : Option Nat
  deriving DecidableEq, Repr

/-- Embeds the full binding phase of `DataFrameFunctionWrapper.run` (lines
53-78): merge positional and keyword arguments, walk the declared parameters,
then either fold the leftover pool into the keyword-capture slot or reject the
leftovers. The result is the keyword-argument dict the wrapped function is
invoked with (`self._func(**rargs)`). -/
def bindCallArgs (sig : Dict ParamSpec) (args : List Val) (kwargs : Dict Val)
    (ignore_unknown : Bool) : Except PyErr (Dict Val) :=
  match mergeCallArgs sig args kwargs with
  | .error e => .error e
  | .ok p1 =>
    match bindLoop sig p1 [] false with
    | .error e => .error e
    | .ok (rargs, pool, has_kw) =>
      if has_kw then .ok (pyUpdate rargs pool)
      else if !ignore_unknown && !pool.isEmpty then
        .error ⟨.valueError, pyDictRepr pool ++ " are not acceptable parameters"⟩
      else .ok rargs

/-- Embeds `DataFrameFunctionWrapper.run` (function_wrapper.py lines 44-86).
The wrapper state is passed explicitly: the resolved ordered parameter map
`sig` (`self._params`), the resolved return annotation `rt` (`self._rt`) and
the wrapped function `func` (`self._func`, which receives the bound `rargs` as
keyword arguments). -/
def DataFrameFunctionWrapper.run (sig : Dict ParamSpec) (rt : RetAnn)
    (func : Dict Val → Val) (args : List Val) (kwargs : Dict Val)
    (ignore_unknown : Bool) (output_schema : Option String) (output : Bool) :
    Except PyErr RunOut :=
  match bindCallArgs sig args kwargs ignore_unknown with
  | .error e => .error e
  | .ok rargs2 =>
    let rtv := func rargs2
    if !output then
      match rt with
      | .dfRet h =>
        match h.count rtv with
        | .error e => .error e
        | .ok n => .ok ⟨none, some n⟩
      | .plain => .ok ⟨none, none⟩
    else
      match rt with
      | .dfRet h =>
        match h.to_output_df rtv output_schema with
        | .error e => .error e
        | .ok dfv => .ok ⟨some dfv, none⟩
      | .plain => .ok ⟨some rtv, none⟩

/-- Embeds the parameter scan of `DataFrameFunctionWrapper.get_format_hint`
(lines 36-39): the first declared tabular parameter whose `format_hint()` is not
None wins. -/
def paramsFormatHint : Dict ParamSpec → Option String
  | [] => none
  | (_, v) :: rest =>
    match v.ann with
    | .dfParam h =>
      match h.format_hint with
      | some s => some s
      | none => paramsFormatHint rest
    | _ => paramsFormatHint rest

/-- Embeds `DataFrameFunctionWrapper.get_format_hint` (lines 35-42). -/
def DataFrameFunctionWrapper.get_format_hint (sig : Dict ParamSpec)
    (rt : RetAnn) : Option String :=
  match paramsFormatHint sig with
  | some s => some s
  | none =>
    match rt with
    | .dfRet h => h.format_hint
    | .plain => none

/-- Specification-side reading of `get_format_hint` for claim C8, from the
spec's words: the first non-none hint among the parameter handlers in declared
order, else the return handler's hint, else none. -/
def specFormatHint (sig : Dict ParamSpec) (rt : RetAnn) : Option String :=
  let paramHints : List String := sig.filterMap fun kv =>
    match kv.2.ann with
    | .dfParam h => h.format_hint
    | _ => none
  match paramHints.head? with
  | some s => some s
  | none =>
    match rt with
    | .dfRet h => h.format_hint
    | .plain => none

/-- Embeds `DataFrameParam.to_output_df` (lines 117-122): assert that the
declared schema is None or equals the produced frame's schema, else raise with
both schemas interpolated into the message; on success return the produced
frame itself unchanged. -/
def DataFrameParam.to_output_df (output : DF) (schema : Option String) :
    Except PyErr DF :=
  match schema with
  | none => .ok output
  | some s =>
    if output.schema = s then .ok output
    else
      .error ⟨.assertionError,
        "Output schema mismatch " ++ output.schema ++ " vs " ++ s⟩

/-- Embeds `_ListListParam.count` (lines 166-168): `len(df)`. -/
def ListListParam.count (df : List (List Val)) : Nat :=
  df.length

/-- Embeds `_IterableListParam.count` (lines 186-188): `sum(1 for _ in df)`, a
full single-pass iteration adding one per yielded row. -/
def IterableListParam.count (df : List (List Val)) : Nat :=
  df.foldl (fun n _ => n + 1) 0

/-- A realized pyarrow columnar table: its rows. -/
structure PaTable where
  rows : List (List Val)
  deriving DecidableEq, Repr

/-- Modelled from the external pyarrow API (outside this repository; the spec
keeps concrete table libraries out of scope): the row-count attributes of
`pyarrow.Table`. The class exposes `num_rows` (and `shape`, whose first
component the sibling `_IterableArrowParam.count` uses), but defines no `count`
attribute, so looking up `count` raises `AttributeError`. -/
def PaTable.getattrNat (t : PaTable) (name : String) : Except PyErr Nat :=
  if name = "num_rows" then .ok t.rows.length
  else if name = "shape0" then .ok t.rows.length
  else
    .error ⟨.attributeError,
      "\x27pyarrow.lib.Table\x27 object has no attribute \x27" ++ name ++ "\x27"⟩

/-- Embeds `_PyArrowTableParam.count` (lines 340-341): `return df.count()`, an
attribute lookup of `count` on the pyarrow table followed by a call. -/
def PyArrowTableParam.count (df : PaTable) : Except PyErr Nat :=
  PaTable.getattrNat df "count"

/-- Embeds `_PandasParam.format_hint` (lines 296-297). -/
def PandasParam.format_hint : Option String :=
  some "pandas"

/-- The `_PandasParam` handler capabilities as seen by `get_format_hint`: its
`to_input_data` realizes the handle as a columnar frame (`df.as_pandas()`,
modelled as an opaque realized value) and its hint is `PandasParam.format_hint`. -/
def PandasParam.handler : DFHandler :=
  ⟨fun d => Val.other ("pandas:" ++ d.tag), PandasParam.format_hint⟩

/-- The essentials of one `inspect.Parameter`: its name and whether it declares
a default value. -/
structure PyParam where
  name : String
  hasDefault : Bool
  deriving DecidableEq, Repr

/-- Modelled from the spec: `AnnotatedParam.__init__`
(fugue/collections/function_wrapper.py, not under src/) records the
requiredness flag of spec section 3 ("named parameters (bound by name, each
with a requiredness flag)"): a function parameter is required iff it declares
no default value; the return-annotation binding (no parameter) counts as
required. -/
def AnnotatedParam.requiredOf : Option PyParam → Bool
  | some q => !q.hasDefault
  | none => true

/-- Embeds `_DataFrameParamBase.__init__` (lines 90-92): after the base
initialization, `assert_or_throw(self.required, TypeError(f"... must be
required"))`. Returns the requiredness flag on success. -/
def DataFrameParamBase.init (param : Option PyParam) : Except PyErr Bool :=
  let required := AnnotatedParam.requiredOf param
  if required then .ok required
  else
    .error ⟨.typeError,
      (match param with
       | some q => q.name
       | none => "return") ++ " must be required"⟩

/-- A value at a module call site: a `FugueWorkflow` execution context
(identified by an id, compared by Python identity), a `WorkflowDataFrame`
graph-bound handle carrying its owning workflow's id, a `WorkflowDataFrames`
named collection, or any other value. -/
inductive WVal where
  | wf (id : Nat)
  | wdf (wfid : Nat)
  | wdfs (items : List (String × WVal))
  | other (tag : String)

/-- Python `str()` of a module-call value, for message interpolation. -/
def wvalStr : WVal → String
  | .wf i => "FugueWorkflow(" ++ toString i ++ ")"
  | .wdf i => "WorkflowDataFrame(" ++ toString i ++ ")"
  | .wdfs _ => "WorkflowDataFrames"
  | .other t => t

/-- The resolved annotation of one module parameter: `_FugueWorkflowParam`,
`_WorkflowDataFrameParam`, `_WorkflowDataFramesParam`, or anything else. -/
inductive MParam where
  | workflowP
  | wdfP
  | wdfsP
  | plainP
  deriving DecidableEq, Repr

/-- Embeds `_ModuleFunctionWrapper._first_annotation_is_workflow` (module.py
lines 121-122). -/
def firstAnnotationIsWorkflow (sig : Dict MParam) : Bool :=
  match sig with
  | (_, MParam.workflowP) :: _ => true
  | _ => false

/-- The key of the first declared parameter
(`self._params.get_key_by_index(0)`). -/
def firstKey (sig : Dict MParam) : String :=
  match sig with
  | (k, _) :: _ => k
  | [] => ""

/-- Embeds `_ModuleFunctionWrapper._need_add_workflow` (lines 124-131). -/
def needAddWorkflow (sig : Dict MParam) (args : List WVal) (kwargs : Dict WVal) :
    Bool :=
  if !firstAnnotationIsWorkflow sig then false
  else if pyHasKey kwargs (firstKey sig) then false
  else
    match args with
    | WVal.wf _ :: _ => false
    | _ => true

/-- The isinstance filter of `_infer_workflow.select_args` (lines 134-140):
is this value a graph-bound dataset handle or a named collection of them. -/
def isGraphHandle : WVal → Bool
  | .wdf _ => true
  | .wdfs _ => true
  | _ => false

/-- Embeds `select_args` (lines 134-140): the graph-bound handles among the
positional arguments, then those among the keyword-argument values, in order. -/
def selectArgs (args : List WVal) (kwargs : Dict WVal) : List WVal :=
  args.filter isGraphHandle ++ (kwargs.map Prod.snd).filter isGraphHandle

/-- The conflict error raised by `_infer_workflow` (source spelling kept). -/
def conflictErr : PyErr :=
  ⟨.valueError, "different parenet workflows found on input dataframes"⟩

/-- Embeds the `WorkflowDataFrames` inner loop of `_infer_workflow`
(lines 150-162): each item must be a `WorkflowDataFrame`, and its owning
workflow must agree with the accumulator. -/
def inferItems : Option Nat → List (String × WVal) → Except PyErr (Option Nat)
  | acc, [] => .ok acc
  | acc, (k, v) :: rest =>
    match v with
    | .wdf w =>
      match acc with
      | none => inferItems (some w) rest
      | some w0 => if w0 = w then inferItems (some w) rest else .error conflictErr
    | nonwdf =>
      .error ⟨.valueError, k ++ ":" ++ wvalStr nonwdf ++ " is not a WorkflowDataFrame"⟩

/-- Embeds the main loop of `_infer_workflow` (lines 142-163) over the selected
graph-bound handles. -/
def inferLoop : Option Nat → List WVal → Except PyErr (Option Nat)
  | acc, [] => .ok acc
  | acc, a :: rest =>
    match a with
    | .wdf w =>
      match acc with
      | none => inferLoop (some w) rest
      | some w0 => if w0 = w then inferLoop (some w) rest else .error conflictErr
    | .wdfs items =>
      match inferItems acc items with
      | .error e => .error e
      | .ok acc2 => inferLoop acc2 rest
    | _ => inferLoop acc rest

/-- Embeds `_ModuleFunctionWrapper._infer_workflow` (lines 133-163). -/
def inferWorkflow (args : List WVal) (kwargs : Dict WVal) :
    Except PyErr (Option Nat) :=
  inferLoop none (selectArgs args kwargs)

/-- The delegation to `super().__call__` (the generic `FunctionWrapper`
protocol in fugue/collections/function_wrapper.py, not under src/): modelled as
the positional and keyword arguments handed over to it. -/
structure DelegatedCall where
  args : List WVal
  kwargs : Dict WVal

/-- Embeds `_ModuleFunctionWrapper.__call__` (lines 86-91): infer and prepend
the workflow context when needed, then delegate. -/
def moduleCall (sig : Dict MParam) (args : List WVal) (kwargs : Dict WVal) :
    Except PyErr DelegatedCall :=
  if needAddWorkflow sig args kwargs then
    match inferWorkflow args kwargs with
    | .error e => .error e
    | .ok none => .error ⟨.valueError, "can\x27t infer workflow"⟩
    | .ok (some w) => .ok ⟨WVal.wf w :: args, kwargs⟩
  else .ok ⟨args, kwargs⟩

/-- Specification-side reading for claim C2: the owning contexts of the
graph-bound dataset handles inside one call-site value. -/
def ctxsOfVal : WVal → List Nat
  | .wdf w => [w]
  | .wdfs items =>
    items.filterMap fun kv =>
      match kv.2 with
      | WVal.wdf w => some w
      | _ => none
  | _ => []

/-- Specification-side reading for claim C2: all owning contexts over the
positional then the keyword arguments, in scan order. -/
def allCtxs (args : List WVal) (kwargs : Dict WVal) : List Nat :=
  (args.map ctxsOfVal).flatten ++ ((kwargs.map Prod.snd).map ctxsOfVal).flatten

/-- Does every named collection among these values hold only single graph-bound
handles (what the `WorkflowDataFrames` type guarantees in the source)? -/
def collectionsWellFormed : WVal → Bool
  | .wdfs items =>
    items.all fun kv =>
      match kv.2 with
      | WVal.wdf _ => true
      | _ => false
  | _ => true

/-- All positional and keyword arguments have well-formed named collections. -/
def argsWellFormed (args : List WVal) (kwargs : Dict WVal) : Bool :=
  args.all collectionsWellFormed &&
    (kwargs.map Prod.snd).all collectionsWellFormed

/-- Specification-side reading for claim C2: fold the owning contexts in scan
order, failing on the first disagreement, exactly as the spec describes
pairwise-identity checking. -/
def inferFoldN : Option Nat → List Nat → Except PyErr (Option Nat)
  | acc, [] => .ok acc
  | acc, c :: rest =>
    match acc with
    | none => inferFoldN (some c) rest
    | some w0 => if w0 = c then inferFoldN (some c) rest else .error conflictErr

/-- Is the first positional argument an execution-context handle (the
`isinstance(args[0], FugueWorkflow)` test of `_need_add_workflow`)? -/
def headIsWorkflow : List WVal → Bool
  | WVal.wf _ :: _ => true
  | _ => false

/-- Embeds `DataFrameParam`'s handler capabilities as used at call time:
`to_input_data` returns the handle unchanged (lines 114-115) and the inherited
`format_hint` is None (lines 108-109). -/
def DataFrameParam.handler : DFHandler :=
  ⟨fun d => Val.df d, none⟩

/-- A resolved signature with two required named parameters `a` and `b` (no
tabular parameters, no keyword capture), for the binding scenarios of spec
section 8 item 3. -/
def sigAB : Dict ParamSpec :=
  [("a", ⟨ParamAnn.plain, true⟩), ("b", ⟨ParamAnn.plain, true⟩)]

/-- A resolved signature whose single required named parameter `x` is a tabular
handler parameter. -/
def sigDfOnly : Dict ParamSpec :=
  [("x", ⟨ParamAnn.dfParam DataFrameParam.handler, true⟩)]

/-- A resolved signature with a required tabular parameter `x` (handler `h`)
followed by a required non-tabular named parameter `y`. -/
def sigDfPlain (h : DFHandler) : Dict ParamSpec :=
  [("x", ⟨ParamAnn.dfParam h, true⟩), ("y", ⟨ParamAnn.plain, true⟩)]

/-- A resolved signature whose only tabular parameter carries the
columnar-frame (pandas) handler, next to one non-tabular parameter. -/
def sigPandasOnly : Dict ParamSpec :=
  [("df1", ⟨ParamAnn.dfParam PandasParam.handler, true⟩),
   ("n", ⟨ParamAnn.plain, true⟩)]

/-- A resolved signature whose handlers declare no format hint at all. -/
def sigNoHint : Dict ParamSpec :=
  [("df1", ⟨ParamAnn.dfParam DataFrameParam.handler, true⟩),
   ("n", ⟨ParamAnn.plain, true⟩)]

/-- A resolved signature with one required non-tabular named parameter `a`. -/
def sigA : Dict ParamSpec :=
  [("a", ⟨ParamAnn.plain, true⟩)]

theorem pyGet_pySet_self {α : Type} (d : Dict α) (k : String) (v : α) :
    pyGet (pySet d k v) k = some v := by
  induction d with
  | nil => simp [pySet, pyGet]
  | cons kv rest ih =>
    obtain ⟨k0, v0⟩ := kv
    by_cases h : k0 = k
    · simp [pySet, pyGet, h]
    · simp [pySet, pyGet, h, ih]

theorem pyGet_pySet_ne {α : Type} (d : Dict α) (k key : String) (v : α)
    (hne : k ≠ key) : pyGet (pySet d key v) k = pyGet d k := by
  induction d with
  | nil => simp [pySet, pyGet, Ne.symm hne]
  | cons kv rest ih =>
    obtain ⟨k0, v0⟩ := kv
    by_cases h : k0 = key
    · subst h
      simp [pySet, pyGet, Ne.symm hne]
    · simp [pySet, pyGet, h, ih]

theorem pyGet_eq_none_of_not_mem {α : Type} (d : Dict α) (k : String)
    (h : k ∉ d.map Prod.fst) : pyGet d k = none := by
  induction d with
  | nil => rfl
  | cons kv rest ih =>
    obtain ⟨k0, v0⟩ := kv
    simp only [List.map_cons, List.mem_cons, not_or] at h
    simp [pyGet, Ne.symm h.1, ih h.2]

theorem buildP_preserve (keys : List String) (args : List Val) (p : Dict Val)
    (hlen : args.length ≤ keys.length) (k : String) (hk : k ∉ keys) :
    ∃ q, buildP keys args p = Except.ok q ∧ pyGet q k = pyGet p k := by
  induction keys generalizing args p with
  | nil =>
    cases args with
    | nil => exact ⟨p, rfl, rfl⟩
    | cons a rest => simp at hlen
  | cons k0 ks ih =>
    cases args with
    | nil => exact ⟨p, rfl, rfl⟩
    | cons a rest =>
      simp only [List.mem_cons, not_or] at hk
      obtain ⟨q, h1, h2⟩ := ih rest (pySet p k0 a)
        (by simpa using Nat.le_of_succ_le_succ hlen) hk.2
      exact ⟨q, h1, by rw [h2, pyGet_pySet_ne _ _ _ _ hk.1]⟩

theorem buildP_get (keys : List String) (args : List Val) (p : Dict Val)
    (hnodup : keys.Nodup) (i : Nat) (k : String) (a : Val)
    (hk : keys[i]? = some k) (ha : args[i]? = some a)
    (hlen : args.length ≤ keys.length) :
    ∃ q, buildP keys args p = Except.ok q ∧ pyGet q k = some a := by
  induction keys generalizing args p i with
  | nil => simp at hk
  | cons k0 ks ih =>
    cases args with
    | nil => simp at ha
    | cons a0 rest =>
      cases i with
      | zero =>
        simp only [List.getElem?_cons_zero, Option.some.injEq] at hk ha
        obtain ⟨q, h1, h2⟩ := buildP_preserve ks rest (pySet p k0 a0)
          (by simpa using Nat.le_of_succ_le_succ hlen) k0
          ((List.nodup_cons.mp hnodup).1)
        refine ⟨q, h1, ?_⟩
        rw [← hk, ← ha, h2, pyGet_pySet_self]
      | succ j =>
        simp only [List.getElem?_cons_succ] at hk ha
        exact ih rest (pySet p k0 a0) ((List.nodup_cons.mp hnodup).2) j hk ha
          (by simpa using Nat.le_of_succ_le_succ hlen)

theorem pyGet_pyUpdate {α : Type} (d e : Dict α) (k : String)
    (he : (e.map Prod.fst).Nodup) :
    pyGet (pyUpdate d e) k =
      match pyGet e k with
      | some v => some v
      | none => pyGet d k := by
  induction e generalizing d with
  | nil => simp [pyUpdate, pyGet]
  | cons kv rest ih =>
    obtain ⟨k0, v0⟩ := kv
    have hres : pyUpdate d ((k0, v0) :: rest) = pyUpdate (pySet d k0 v0) rest :=
      rfl
    simp only [List.map_cons, List.nodup_cons] at he
    by_cases hkk : k0 = k
    · subst hkk
      have hnone : pyGet rest k0 = none :=
        pyGet_eq_none_of_not_mem rest k0 he.1
      rw [hres, ih (pySet d k0 v0) he.2]
      simp [pyGet, hnone, pyGet_pySet_self]
    · rw [hres, ih (pySet d k0 v0) he.2]
      have hget : pyGet (pySet d k0 v0) k = pyGet d k :=
        pyGet_pySet_ne _ _ _ _ (fun h => hkk h.symm)
      cases hrest : pyGet rest k <;> simp [pyGet, hkk, hrest, hget]

theorem foldl_add_one_eq_length {α : Type} (l : List α) (n : Nat) :
    l.foldl (fun m _ => m + 1) n = n + l.length := by
  induction l generalizing n with
  | nil => simp
  | cons a rest ih => simp [List.foldl, ih]; omega

theorem paramsFormatHint_eq_head (sig : Dict ParamSpec) :
    paramsFormatHint sig =
      (sig.filterMap fun kv =>
        match kv.2.ann with
        | ParamAnn.dfParam h => h.format_hint
        | _ => none).head? := by
  induction sig with
  | nil => rfl
  | cons kv rest ih =>
    obtain ⟨k, v⟩ := kv
    cases hann : v.ann with
    | dfParam h =>
      cases hh : h.format_hint with
      | some s => simp [paramsFormatHint, hann, hh, List.filterMap_cons]
      | none => simp [paramsFormatHint, hann, hh, List.filterMap_cons, ih]
    | positional => simp [paramsFormatHint, hann, List.filterMap_cons, ih]
    | keyword => simp [paramsFormatHint, hann, List.filterMap_cons, ih]
    | plain => simp [paramsFormatHint, hann, List.filterMap_cons, ih]

/-- C3: with required named parameters `a` and `b` and no keyword capture,
calling with only `a` raises the required-parameter error naming `b` whatever
the wrapped function is (so before it can run); calling with `a`, `b` and an
extra `c` with `ignore_unknown` false raises the unacceptable-parameters error
whose message names `c`; the same call with `ignore_unknown` true succeeds and
the wrapped function receives exactly `a` and `b`, with `c` discarded. -/
theorem claim_C3 (func : Dict Val → Val) (va vb vc : Val) (ig : Bool)
    (sch : Option String) (outp : Bool) :
    (DataFrameFunctionWrapper.run sigAB RetAnn.plain func [] [("a", va)]
        ig sch outp =
      Except.error ⟨PyErrType.valueError, "b is required by not given"⟩) ∧
    (DataFrameFunctionWrapper.run sigAB RetAnn.plain func []
        [("a", va), ("b", vb), ("c", vc)] false sch outp =
      Except.error ⟨PyErrType.valueError,
        pyDictRepr [("c", vc)] ++ " are not acceptable parameters"⟩) ∧
    (pyDictRepr [("c", Val.other "3")] ++ " are not acceptable parameters" =
      "\x7b\x27" ++ "c" ++ "\x27: 3\x7d are not acceptable parameters") ∧
    (DataFrameFunctionWrapper.run sigAB RetAnn.plain func []
        [("a", va), ("b", vb), ("c", vc)] true sch true =
      Except.ok ⟨some (func [("a", va), ("b", vb)]), none⟩) := by
  refine ⟨?_, ?_, by decide, ?_⟩
  · simp [DataFrameFunctionWrapper.run, bindCallArgs, mergeCallArgs, buildP,
      pyUpdate, pySet, bindLoop, pyGet, sigAB]
  · simp [DataFrameFunctionWrapper.run, bindCallArgs, mergeCallArgs, buildP,
      pyUpdate, pySet, bindLoop, pyGet, pyErase, sigAB]
  · simp [DataFrameFunctionWrapper.run, bindCallArgs, mergeCallArgs, buildP,
      pyUpdate, pySet, bindLoop, pyGet, pyErase, sigAB]

/-- C4 counterexample: the claim asserts three pairwise-distinguishable error
TYPES, but at these concrete calls the missing-required failure and the
unexpected-parameter failure are both `ValueError` (only the tabular
type-mismatch is a `TypeError`), so the pairwise-distinct-type property fails. -/
theorem claim_C4_counterexample :
    ¬ (∀ e1 e2 e3 : PyErr,
        DataFrameFunctionWrapper.run sigAB RetAnn.plain (fun _ => Val.other "r")
          [] [("a", Val.other "1")] false none true = Except.error e1 →
        DataFrameFunctionWrapper.run sigDfOnly RetAnn.plain
          (fun _ => Val.other "r") [] [("x", Val.other "3")] false none true =
          Except.error e2 →
        DataFrameFunctionWrapper.run sigAB RetAnn.plain (fun _ => Val.other "r")
          [] [("a", Val.other "1"), ("b", Val.other "2"), ("c", Val.other "3")]
          false none true = Except.error e3 →
        e1.ty ≠ e2.ty ∧ e1.ty ≠ e3.ty ∧ e2.ty ≠ e3.ty) := by
  intro hall
  have h := hall ⟨PyErrType.valueError, "b is required by not given"⟩
    ⟨PyErrType.typeError, "3 is not a DataFrame"⟩
    ⟨PyErrType.valueError, "\x7b\x27c\x27: 3\x7d are not acceptable parameters"⟩
    (by rfl) (by rfl) (by rfl)
  exact h.2.1 rfl

/-- C4 (amended): the three binding failures are surfaced synchronously to the
caller as typed errors and none is retried (the binding protocol is a pure
function returning the first error); the tabular type-mismatch is a `TypeError`
distinguishable by type from the other two, while missing-required and
unexpected-parameter are both `ValueError` and are distinguished by message, so
the three errors are pairwise distinct as (type, message) pairs. -/
theorem claim_C4 :
    (DataFrameFunctionWrapper.run sigAB RetAnn.plain (fun _ => Val.other "r")
        [] [("a", Val.other "1")] false none true =
      Except.error ⟨PyErrType.valueError, "b is required by not given"⟩) ∧
    (DataFrameFunctionWrapper.run sigDfOnly RetAnn.plain
        (fun _ => Val.other "r") [] [("x", Val.other "3")] false none true =
      Except.error ⟨PyErrType.typeError, "3 is not a DataFrame"⟩) ∧
    (DataFrameFunctionWrapper.run sigAB RetAnn.plain (fun _ => Val.other "r")
        [] [("a", Val.other "1"), ("b", Val.other "2"), ("c", Val.other "3")]
        false none true =
      Except.error ⟨PyErrType.valueError,
        "\x7b\x27c\x27: 3\x7d are not acceptable parameters"⟩) ∧
    ((⟨PyErrType.valueError, "b is required by not given"⟩ : PyErr) ≠
      ⟨PyErrType.typeError, "3 is not a DataFrame"⟩) ∧
    ((⟨PyErrType.valueError, "b is required by not given"⟩ : PyErr) ≠
      ⟨PyErrType.valueError,
        "\x7b\x27c\x27: 3\x7d are not acceptable parameters"⟩) ∧
    ((⟨PyErrType.typeError, "3 is not a DataFrame"⟩ : PyErr) ≠
      ⟨PyErrType.valueError,
        "\x7b\x27c\x27: 3\x7d are not acceptable parameters"⟩) ∧
    PyErrType.typeError ≠ PyErrType.valueError := by
  refine ⟨by rfl, by rfl, by rfl, by decide, by decide, by decide, by decide⟩

/-- C5: for a declared tabular handler parameter `x` (any handler `h`), a call
value that is not an abstract tabular-dataset handle makes `run` fail with a
`TypeError`, while a `DataFrame` value reaches the wrapped function as
`h.to_input_data` of it; the non-tabular named parameter `y` receives its raw
call value unconverted. -/
theorem claim_C5 (h : DFHandler) (func : Dict Val → Val) (d : DF) (t : String)
    (w : Val) (ig : Bool) (sch : Option String) (outp : Bool) :
    (DataFrameFunctionWrapper.run (sigDfPlain h) RetAnn.plain func []
        [("x", Val.other t), ("y", w)] ig sch outp =
      Except.error ⟨PyErrType.typeError, t ++ " is not a DataFrame"⟩) ∧
    (DataFrameFunctionWrapper.run (sigDfPlain h) RetAnn.plain func []
        [("x", Val.df d), ("y", w)] false none true =
      Except.ok ⟨some (func [("x", h.to_input_data d), ("y", w)]), none⟩) := by
  constructor
  · simp [DataFrameFunctionWrapper.run, bindCallArgs, mergeCallArgs, buildP,
      pyUpdate, pySet, bindLoop, pyGet, pyErase, sigDfPlain]
  · simp [DataFrameFunctionWrapper.run, bindCallArgs, mergeCallArgs, buildP,
      pyUpdate, pySet, bindLoop, pyGet, pyErase, sigDfPlain]

/-- C6: the row-list and streaming-row handlers do count by (the length of) the
full row iteration, including 0 on zero rows; but the realized columnar-table
(Arrow-style) handler's `count` calls `df.count()` on a `pyarrow.Table`, which
has no `count` attribute, so it raises `AttributeError` instead of returning
the row count — already on the empty table. -/
theorem claim_C6 :
    (∀ df : List (List Val), ListListParam.count df = df.length) ∧
    (∀ df : List (List Val), IterableListParam.count df = df.length) ∧
    ListListParam.count [] = 0 ∧
    IterableListParam.count [] = 0 ∧
    PyArrowTableParam.count ⟨[]⟩ =
      Except.error ⟨PyErrType.attributeError,
        "\x27pyarrow.lib.Table\x27 object has no attribute \x27count\x27"⟩ := by
  refine ⟨fun df => rfl, fun df => ?_, rfl, rfl, by rfl⟩
  simp [IterableListParam.count, foldl_add_one_eq_length]

/-- C7: the abstract-handle return conversion `DataFrameParam.to_output_df`
returns the produced handle unchanged when the declared schema is None or
equals the handle's schema, and otherwise fails with an error whose message
carries both the produced and the expected schema. -/
theorem claim_C7 (out : DF) (s : String) :
    (DataFrameParam.to_output_df out none = Except.ok out) ∧
    (out.schema = s → DataFrameParam.to_output_df out (some s) = Except.ok out) ∧
    (out.schema ≠ s →
      DataFrameParam.to_output_df out (some s) =
        Except.error ⟨PyErrType.assertionError,
          "Output schema mismatch " ++ out.schema ++ " vs " ++ s⟩) := by
  refine ⟨rfl, fun heq => ?_, fun hne => ?_⟩
  · simp [DataFrameParam.to_output_df, heq]
  · simp [DataFrameParam.to_output_df, hne]

/-- C7 witness: a concrete schema disagreement produces the error with both
schemas in the message; the equal-schema case returns the handle unchanged. -/
theorem claim_C7_witness :
    (DataFrameParam.to_output_df ⟨"df1", "a:int"⟩ (some "b:str") =
      Except.error ⟨PyErrType.assertionError,
        "Output schema mismatch " ++ "a:int" ++ " vs " ++ "b:str"⟩) ∧
    (DataFrameParam.to_output_df ⟨"df1", "a:int"⟩ (some "a:int") =
      Except.ok ⟨"df1", "a:int"⟩) :=
  ⟨(claim_C7 ⟨"df1", "a:int"⟩ "b:str").2.2 (by decide),
   (claim_C7 ⟨"df1", "a:int"⟩ "a:int").2.1 rfl⟩

/-- C8: `get_format_hint` returns the first non-none hint among the parameter
handlers in declared order, else the return handler's hint, else None
(the specification-side reading `specFormatHint`); in particular it returns
"pandas" when the only tabular parameter is the columnar-frame handler, and
None when no handler in the signature declares a hint. -/
theorem claim_C8 :
    (∀ (sig : Dict ParamSpec) (rt : RetAnn),
      DataFrameFunctionWrapper.get_format_hint sig rt = specFormatHint sig rt) ∧
    DataFrameFunctionWrapper.get_format_hint sigPandasOnly RetAnn.plain =
      some "pandas" ∧
    DataFrameFunctionWrapper.get_format_hint sigNoHint RetAnn.plain = none := by
  refine ⟨fun sig rt => ?_, rfl, rfl⟩
  simp [DataFrameFunctionWrapper.get_format_hint, specFormatHint,
    paramsFormatHint_eq_head]

/-- C10: a tabular handler binding for a function parameter that declares a
default value (hence is not required) fails at signature-resolution time with a
`TypeError`, so no wrapped function can have an optional tabular parameter. -/
theorem claim_C10 (q : PyParam) (hdef : q.hasDefault = true) :
    AnnotatedParam.requiredOf (some q) = false ∧
    DataFrameParamBase.init (some q) =
      Except.error ⟨PyErrType.typeError, q.name ++ " must be required"⟩ := by
  constructor
  · simp [AnnotatedParam.requiredOf, hdef]
  · simp [DataFrameParamBase.init, AnnotatedParam.requiredOf, hdef]

/-- C10 witness: a concrete parameter with a default is rejected. -/
theorem claim_C10_witness :
    AnnotatedParam.requiredOf (some ⟨"x1", true⟩) = false ∧
    DataFrameParamBase.init (some ⟨"x1", true⟩) =
      Except.error ⟨PyErrType.typeError, "x1" ++ " must be required"⟩ :=
  claim_C10 ⟨"x1", true⟩ rfl

/-- C9: in the argument merge of `run`, each positional argument is bound to
the parameter slot of the same declared index, and a keyword argument whose
name coincides with a positionally bound parameter supplies the value actually
used for that parameter. -/
theorem claim_C9 (sig : Dict ParamSpec) (args : List Val) (kwargs : Dict Val)
    (i : Nat) (k : String) (a : Val)
    (hsig : (sig.map Prod.fst).Nodup)
    (hkw : (kwargs.map Prod.fst).Nodup)
    (hk : (sig.map Prod.fst)[i]? = some k) (ha : args[i]? = some a)
    (hlen : args.length ≤ sig.length) :
    ∃ p, mergeCallArgs sig args kwargs = Except.ok p ∧
      pyGet p k =
        match pyGet kwargs k with
        | some w => some w
        | none => some a := by
  obtain ⟨q, h1, h2⟩ := buildP_get (sig.map Prod.fst) args [] hsig i k a hk ha
    (by simpa using hlen)
  refine ⟨pyUpdate q kwargs, ?_, ?_⟩
  · simp [mergeCallArgs, h1]
  · rw [pyGet_pyUpdate q kwargs k hkw]
    cases hw : pyGet kwargs k <;> simp [h2]

/-- C9 witness: with parameters `a`, `b`, positional values for both and a
keyword value for `b`, the keyword value wins for `b`. -/
theorem claim_C9_witness :
    ∃ p, mergeCallArgs sigAB [Val.other "1", Val.other "2"]
        [("b", Val.other "9")] = Except.ok p ∧
      pyGet p "b" = some (Val.other "9") := by
  simpa using claim_C9 sigAB [Val.other "1", Val.other "2"]
    [("b", Val.other "9")] 1 "b" (Val.other "2")
    (by decide) (by decide) (by decide) (by decide) (by decide)

/-- C1 counterexample: with `produce_output` false and a return annotation that
is NOT a tabular handler, `run` returns nothing (Python `None`), not the raw
return value, contradicting the second half of the claim. -/
theorem claim_C1_counterexample :
    (DataFrameFunctionWrapper.run sigA RetAnn.plain (fun _ => Val.other "raw")
        [] [("a", Val.other "1")] false none false =
      Except.ok ⟨none, none⟩) ∧
    ¬ (DataFrameFunctionWrapper.run sigA RetAnn.plain (fun _ => Val.other "raw")
        [] [("a", Val.other "1")] false none false =
      Except.ok ⟨some (Val.other "raw"), none⟩) := by
  refine ⟨rfl, ?_⟩
  intro h
  rw [show DataFrameFunctionWrapper.run sigA RetAnn.plain
      (fun _ => Val.other "raw") [] [("a", Val.other "1")] false none false =
      Except.ok ⟨none, none⟩ from rfl] at h
  injection h with h2
  exact Option.noConfusion (congrArg RunOut.ret h2)

/-- C1 (amended): when `produce_output` is false, `run` returns nothing
regardless of the return annotation: if the annotation is a tabular handler the
return value is first row-counted via the handler's `count` (the count being
the only effect), and if it is not, the raw return value is simply discarded. -/
theorem claim_C1 (sig : Dict ParamSpec) (rt : RetAnn) (func : Dict Val → Val)
    (args : List Val) (kwargs : Dict Val) (ig : Bool) (sch : Option String) :
    (DataFrameFunctionWrapper.run sig rt func args kwargs ig sch false =
      match bindCallArgs sig args kwargs ig with
      | .error e => .error e
      | .ok rargs =>
        match rt with
        | .dfRet h =>
          match h.count (func rargs) with
          | .error e => .error e
          | .ok n => Except.ok ⟨none, some n⟩
        | .plain => Except.ok ⟨none, none⟩) ∧
    (∀ r : RunOut,
      DataFrameFunctionWrapper.run sig rt func args kwargs ig sch false =
        Except.ok r → r.ret = none) := by
  constructor
  · rfl
  · intro r hr
    unfold DataFrameFunctionWrapper.run at hr
    cases hb : bindCallArgs sig args kwargs ig with
    | error e => rw [hb] at hr; exact Except.noConfusion hr
    | ok rargs =>
      rw [hb] at hr
      simp only [Bool.not_false, if_pos] at hr
      cases rt with
      | dfRet h =>
        cases hc : h.count (func rargs) with
        | error e => simp [hc] at hr
        | ok n =>
          simp [hc] at hr
          rw [← hr]
      | plain =>
        simp at hr
        rw [← hr]

theorem inferFoldN_append (acc : Option Nat) (l1 l2 : List Nat) :
    inferFoldN acc (l1 ++ l2) =
      match inferFoldN acc l1 with
      | .error e => .error e
      | .ok acc2 => inferFoldN acc2 l2 := by
  induction l1 generalizing acc with
  | nil => simp [inferFoldN]
  | cons c rest ih =>
    cases acc with
    | none => simp [inferFoldN, ih]
    | some w0 =>
      by_cases h : w0 = c
      · simp [inferFoldN, h, ih]
      · simp [inferFoldN, h]

theorem inferItems_eq_foldN (acc : Option Nat) (items : List (String × WVal))
    (hwf : collectionsWellFormed (WVal.wdfs items) = true) :
    inferItems acc items = inferFoldN acc (ctxsOfVal (WVal.wdfs items)) := by
  induction items generalizing acc with
  | nil => simp [inferItems, ctxsOfVal, inferFoldN]
  | cons kv rest ih =>
    obtain ⟨k, v⟩ := kv
    simp only [collectionsWellFormed, List.all_cons, Bool.and_eq_true] at hwf
    cases v with
    | wdf w =>
      have hrest : collectionsWellFormed (WVal.wdfs rest) = true := by
        simp [collectionsWellFormed, hwf.2]
      cases acc with
      | none =>
        simp only [inferItems, ctxsOfVal, List.filterMap_cons]
        simpa [ctxsOfVal, inferFoldN] using ih (some w) hrest
      | some w0 =>
        by_cases h : w0 = w
        · simp only [inferItems, ctxsOfVal, List.filterMap_cons, h]
          simpa [ctxsOfVal, inferFoldN] using ih (some w) hrest
        · simp [inferItems, ctxsOfVal, List.filterMap_cons, inferFoldN, h]
    | wf i => simp at hwf
    | wdfs its => simp at hwf
    | other t => simp at hwf

theorem inferLoop_eq_foldN (acc : Option Nat) (vs : List WVal)
    (hwf : vs.all collectionsWellFormed = true) :
    inferLoop acc vs = inferFoldN acc ((vs.map ctxsOfVal).flatten) := by
  induction vs generalizing acc with
  | nil => simp [inferLoop, inferFoldN]
  | cons a rest ih =>
    simp only [List.all_cons, Bool.and_eq_true] at hwf
    cases a with
    | wf i => simpa [inferLoop, ctxsOfVal] using ih acc hwf.2
    | wdf w =>
      cases acc with
      | none => simpa [inferLoop, ctxsOfVal, inferFoldN] using ih (some w) hwf.2
      | some w0 =>
        by_cases h : w0 = w
        · simpa [inferLoop, ctxsOfVal, inferFoldN, h] using ih (some w) hwf.2
        · simp [inferLoop, ctxsOfVal, inferFoldN, h]
    | wdfs items =>
      have hstep :
          inferLoop acc (WVal.wdfs items :: rest) =
            match inferItems acc items with
            | .error e => .error e
            | .ok acc2 => inferLoop acc2 rest := rfl
      rw [hstep, inferItems_eq_foldN acc items hwf.1]
      have hflat :
          ((WVal.wdfs items :: rest).map ctxsOfVal).flatten =
            ctxsOfVal (WVal.wdfs items) ++ (rest.map ctxsOfVal).flatten := by
        simp
      rw [hflat, inferFoldN_append]
      cases hres : inferFoldN acc (ctxsOfVal (WVal.wdfs items)) with
      | error e => rfl
      | ok acc2 => exact ih acc2 hwf.2
    | other t => simpa [inferLoop, ctxsOfVal] using ih acc hwf.2

theorem flatten_filter_graph (l : List WVal) :
    ((l.filter isGraphHandle).map ctxsOfVal).flatten =
      (l.map ctxsOfVal).flatten := by
  induction l with
  | nil => rfl
  | cons a rest ih =>
    cases a with
    | wf i => simpa [List.filter_cons, isGraphHandle, ctxsOfVal] using ih
    | wdf w => simpa [List.filter_cons, isGraphHandle] using ih
    | wdfs items => simpa [List.filter_cons, isGraphHandle] using ih
    | other t => simpa [List.filter_cons, isGraphHandle, ctxsOfVal] using ih

theorem selectArgs_ctxs (args : List WVal) (kwargs : Dict WVal) :
    ((selectArgs args kwargs).map ctxsOfVal).flatten = allCtxs args kwargs := by
  simp [selectArgs, allCtxs, flatten_filter_graph]

theorem inferFoldN_all_eq (w : Nat) (cs : List Nat) (h : ∀ c ∈ cs, c = w) :
    inferFoldN (some w) cs = Except.ok (some w) := by
  induction cs with
  | nil => rfl
  | cons c rest ih =>
    have hc : c = w := h c (List.mem_cons_self c rest)
    subst hc
    simpa [inferFoldN] using ih (fun d hd => h d (List.mem_cons_of_mem c hd))

theorem inferFoldN_none_all_eq (w : Nat) (cs : List Nat) (hne : cs ≠ [])
    (h : ∀ c ∈ cs, c = w) : inferFoldN none cs = Except.ok (some w) := by
  cases cs with
  | nil => exact absurd rfl hne
  | cons c rest =>
    have hc : c = w := h c (List.mem_cons_self c rest)
    subst hc
    simpa [inferFoldN] using
      inferFoldN_all_eq c rest (fun d hd => h d (List.mem_cons_of_mem c hd))

theorem inferFoldN_conflict_some (a : Nat) (cs : List Nat) (d : Nat)
    (hd : d ∈ cs) (hda : d ≠ a) :
    inferFoldN (some a) cs = Except.error conflictErr := by
  induction cs with
  | nil => simp at hd
  | cons e rest ih =>
    by_cases he : a = e
    · subst he
      have hdr : d ∈ rest := by
        rcases List.mem_cons.mp hd with h | h
        · exact absurd h hda
        · exact h
      simpa [inferFoldN] using ih hdr
    · simp [inferFoldN, he]

theorem inferFoldN_conflict (c1 c2 : Nat) (cs : List Nat) (h1 : c1 ∈ cs)
    (h2 : c2 ∈ cs) (hne : c1 ≠ c2) :
    inferFoldN none cs = Except.error conflictErr := by
  cases cs with
  | nil => simp at h1
  | cons c rest =>
    have hstep : inferFoldN none (c :: rest) = inferFoldN (some c) rest := by
      simp [inferFoldN]
    rw [hstep]
    by_cases hc1 : c1 = c
    · have hc2c : c2 ≠ c := by
        intro h
        exact hne (hc1.trans h.symm)
      have hc2r : c2 ∈ rest := by
        rcases List.mem_cons.mp h2 with h | h
        · exact absurd h hc2c
        · exact h
      exact inferFoldN_conflict_some c rest c2 hc2r hc2c
    · have hc1r : c1 ∈ rest := by
        rcases List.mem_cons.mp h1 with h | h
        · exact absurd h hc1
        · exact h
      exact inferFoldN_conflict_some c rest c1 hc1r hc1

theorem needAddWorkflow_of (sig : Dict MParam) (args : List WVal)
    (kwargs : Dict WVal) (h1 : firstAnnotationIsWorkflow sig = true)
    (h2 : pyHasKey kwargs (firstKey sig) = false)
    (h3 : headIsWorkflow args = false) :
    needAddWorkflow sig args kwargs = true := by
  unfold needAddWorkflow
  rw [h1, h2]
  simp only [Bool.not_true, Bool.false_eq_true, if_false, ite_self]
  cases args with
  | nil => rfl
  | cons a rest =>
    cases a with
    | wf i => simp [headIsWorkflow] at h3
    | wdf w => rfl
    | wdfs items => rfl
    | other t => rfl

theorem selectArgs_wellFormed (args : List WVal) (kwargs : Dict WVal)
    (hwf : argsWellFormed args kwargs = true) :
    (selectArgs args kwargs).all collectionsWellFormed = true := by
  simp only [argsWellFormed, Bool.and_eq_true, List.all_eq_true] at hwf
  rw [List.all_eq_true]
  intro x hx
  rcases List.mem_append.mp hx with h | h
  · exact hwf.1 x (List.mem_of_mem_filter h)
  · exact hwf.2 x (List.mem_of_mem_filter h)

/-- C2: when the first declared parameter is an execution-context (workflow)
handle and the call supplies no explicit context (not in keyword args, not the
first positional argument), the wrapper scans all positional then keyword
arguments for graph-bound dataset handles: two handles with different owning
contexts make the call fail with the `ValueError` conflict error; no inferable
context makes it fail with `ValueError` "can not infer workflow"; otherwise the
single inferred context is prepended as the first positional argument before
delegating to the standard binding protocol. -/
theorem claim_C2 (sig : Dict MParam) (args : List WVal) (kwargs : Dict WVal)
    (h1 : firstAnnotationIsWorkflow sig = true)
    (h2 : pyHasKey kwargs (firstKey sig) = false)
    (h3 : headIsWorkflow args = false)
    (hwf : argsWellFormed args kwargs = true) :
    (∀ c1 c2, c1 ∈ allCtxs args kwargs → c2 ∈ allCtxs args kwargs → c1 ≠ c2 →
      moduleCall sig args kwargs = Except.error conflictErr ∧
        conflictErr.ty = PyErrType.valueError) ∧
    (allCtxs args kwargs = [] →
      moduleCall sig args kwargs =
        Except.error ⟨PyErrType.valueError, "can\x27t infer workflow"⟩) ∧
    (∀ w, allCtxs args kwargs ≠ [] → (∀ c ∈ allCtxs args kwargs, c = w) →
      moduleCall sig args kwargs = Except.ok ⟨WVal.wf w :: args, kwargs⟩) := by
  have hneed := needAddWorkflow_of sig args kwargs h1 h2 h3
  have hinfer : inferWorkflow args kwargs =
      inferFoldN none (allCtxs args kwargs) := by
    unfold inferWorkflow
    rw [inferLoop_eq_foldN none (selectArgs args kwargs)
      (selectArgs_wellFormed args kwargs hwf), selectArgs_ctxs]
  refine ⟨?_, ?_, ?_⟩
  · intro c1 c2 hm1 hm2 hne
    have hconf := inferFoldN_conflict c1 c2 (allCtxs args kwargs) hm1 hm2 hne
    rw [hconf] at hinfer
    refine ⟨?_, rfl⟩
    simp [moduleCall, hneed, hinfer]
  · intro hempty
    rw [hempty] at hinfer
    simp only [inferFoldN] at hinfer
    simp [moduleCall, hneed, hinfer]
  · intro w hne hall
    have hok := inferFoldN_none_all_eq w (allCtxs args kwargs) hne hall
    rw [hok] at hinfer
    simp [moduleCall, hneed, hinfer]

/-- C2 witness: one graph-bound handle owned by workflow 7 and no explicit
context: the inferred context is prepended and the call is delegated. -/
theorem claim_C2_witness :
    moduleCall [("dag", MParam.workflowP), ("df1", MParam.wdfP)]
        [WVal.wdf 7] [] = Except.ok ⟨[WVal.wf 7, WVal.wdf 7], []⟩ := by
  have h := (claim_C2 [("dag", MParam.workflowP), ("df1", MParam.wdfP)]
    [WVal.wdf 7] [] rfl rfl rfl rfl).2.2 7 (by decide) (by decide)
  simpa using h

end Fugue
